import Mathlib

/-!
Shallow embedding of the DVFS frequency-limit arbitration subsystem of
`kernel/power/main.c` (CONFIG_DVFS_LIMIT): the frequency-table lookup
`get_cpufreq_level`, the two sysfs store operations
`cpufreq_max_limit_store` / `cpufreq_min_limit_store`, and the cpufreq
policy notifier `dvfs_cpufreq_notifier`, together with theorems about
them.

The frequency table is modelled as the list of `unsigned int` entries
that precede the `CPUFREQ_TABLE_END` terminator, in array order
(index 0 first).  The shared mutable globals
`cpufreq_max_limit_val`, `cpufreq_min_limit_val`, `min_replacement`
and the last value pushed to the PRCMU QoS channel form `DvfsState`.
-/

namespace DvfsLimit

/-- The sentinel `CPUFREQ_ENTRY_INVALID`, `~0` as a 32-bit `unsigned int`. -/
def CPUFREQ_ENTRY_INVALID : Nat := 4294967295

/-- The `CPUFREQ_ADJUST` policy-notifier event (value 0). -/
def CPUFREQ_ADJUST : Nat := 0

/-- Constant `PRCMU_QOS_DEFAULT_VALUE` from `linux/mfd/dbx500-prcmu.h`. -/
def PRCMU_QOS_DEFAULT_VALUE : Int := -1

/-- The C cast `(unsigned int)v` of a signed 32-bit `int` value. -/
def uintOf (v : Int) : Nat := (v % (2 ^ 32)).toNat

/-- The `enum dvfs_lock_request_type` of the source. -/
inductive DvfsLockReq
  | min_lock
  | max_lock
deriving DecidableEq

/-- Function `get_cpufreq_level`: resolve a requested frequency against the table.
`some l` models `VALID_LEVEL` with `*level = l`; `none` models the
`-EINVAL` return (no matching entry).  The `DVFS_MIN_LOCK_REQ` loop scans
the array upward and takes the first entry with `frequency >= freq`; the
`DVFS_MAX_LOCK_REQ` loop scans downward from the last entry and takes the
first entry with `frequency <= freq`.  Neither loop skips
`CPUFREQ_ENTRY_INVALID` entries. -/
def get_cpufreq_level (table : List Nat) (freq : Nat) (req_type : DvfsLockReq) :
    Option Nat :=
  match req_type with
  | .min_lock => table.find? (fun f => decide (freq ≤ f))
  | .max_lock => table.reverse.find? (fun f => decide (f ≤ freq))

/-- The DVFS globals of `kernel/power/main.c` plus the observable QoS
channel: `prcmu_qos_arm_khz` records the last value pushed via
`prcmu_qos_update_requirement(PRCMU_QOS_ARM_KHZ, "power", _)`. -/
structure DvfsState where
  cpufreq_max_limit_val : Int
  cpufreq_min_limit_val : Int
  min_replacement : Bool
  prcmu_qos_arm_khz : Int
deriving DecidableEq, Repr

/-- Initial state: both limits `-1`, flag clear, QoS channel at the
default value installed by `pm_init`. -/
def dvfsInit : DvfsState :=
  { cpufreq_max_limit_val := -1
    cpufreq_min_limit_val := -1
    min_replacement := false
    prcmu_qos_arm_khz := PRCMU_QOS_DEFAULT_VALUE }

/-- Which branch of a store operation ran, as observable through the
sysfs return value and the kernel log. -/
inductive StoreOutcome
  | parse_error
  | unlocked
  | already_unlocked
  | locked
  | invalid_lock
deriving DecidableEq, Repr

/-- Whether the store returns the byte count `n` (success) rather than
`-EINVAL`: in the source every branch except the `sscanf` failure sets
`ret = n`. -/
def store_succeeds (o : StoreOutcome) : Bool :=
  decide (o ≠ StoreOutcome.parse_error)

/-- Core of `cpufreq_max_limit_store` after `sscanf` succeeded with
value `val` (the spec's `request_max`). -/
def request_max (table : List Nat) (s : DvfsState) (val : Int) :
    StoreOutcome × DvfsState :=
  if val = -1 then
    if s.cpufreq_max_limit_val ≠ -1 then
      let s1 : DvfsState := { s with cpufreq_max_limit_val := -1 }
      if s1.min_replacement = true ∧ s1.cpufreq_min_limit_val ≠ -1 then
        (.unlocked, { s1 with prcmu_qos_arm_khz := s1.cpufreq_min_limit_val
                              min_replacement := false })
      else
        (.unlocked, s1)
    else
      (.already_unlocked, s)
  else
    match get_cpufreq_level table (uintOf val) .max_lock with
    | some _ =>
        let s1 : DvfsState := { s with cpufreq_max_limit_val := val }
        if s1.cpufreq_min_limit_val ≠ -1 ∧
            s1.cpufreq_max_limit_val < s1.cpufreq_min_limit_val then
          (.locked, { s1 with prcmu_qos_arm_khz := s1.cpufreq_max_limit_val
                              min_replacement := true })
        else
          (.locked, s1)
    | none => (.invalid_lock, s)

/-- Core of `cpufreq_min_limit_store` after `sscanf` succeeded with
value `val` (the spec's `request_min`). -/
def request_min (table : List Nat) (s : DvfsState) (val : Int) :
    StoreOutcome × DvfsState :=
  if val = -1 then
    if s.cpufreq_min_limit_val ≠ -1 then
      (.unlocked, { s with cpufreq_min_limit_val := -1
                           prcmu_qos_arm_khz := PRCMU_QOS_DEFAULT_VALUE
                           min_replacement := false })
    else
      (.already_unlocked, s)
  else
    match get_cpufreq_level table (uintOf val) .min_lock with
    | some _ =>
        let s1 : DvfsState := { s with cpufreq_min_limit_val := val }
        if s1.cpufreq_max_limit_val ≠ -1 ∧
            s1.cpufreq_max_limit_val < s1.cpufreq_min_limit_val then
          (.locked, { s1 with prcmu_qos_arm_khz := s1.cpufreq_max_limit_val
                              min_replacement := true })
        else
          (.locked, { s1 with prcmu_qos_arm_khz := s1.cpufreq_min_limit_val })
    | none => (.invalid_lock, s)

/-- Endpoint `cpufreq_max_limit_store`: `none` models input where
`sscanf(buf, "%d", &val) != 1`. -/
def cpufreq_max_limit_store (table : List Nat) (s : DvfsState)
    (input : Option Int) : StoreOutcome × DvfsState :=
  match input with
  | none => (.parse_error, s)
  | some val => request_max table s val

/-- Endpoint `cpufreq_min_limit_store`: `none` models input where
`sscanf(buf, "%d", &val) != 1`. -/
def cpufreq_min_limit_store (table : List Nat) (s : DvfsState)
    (input : Option Int) : StoreOutcome × DvfsState :=
  match input with
  | none => (.parse_error, s)
  | some val => request_min table s val

/-- The result of a notifier callback: `NOTIFY_DONE` or `-EINVAL`. -/
inductive NotifierResult
  | done
  | einval
deriving DecidableEq, Repr

/-- The fields of `struct cpufreq_policy` that `dvfs_cpufreq_notifier`
reads or could write. -/
structure CpufreqPolicy where
  min : Nat
  max : Nat
  cur : Nat
  cpuinfo_min_freq : Nat
  cpuinfo_max_freq : Nat
deriving DecidableEq, Repr

/-- Callback `dvfs_cpufreq_notifier`: on `CPUFREQ_ADJUST` with an available table,
clamp `policy->max` to `cpufreq_max_limit_val` when locked and the
current `policy->max` exceeds it (C compares `policy->max`, an
`unsigned int`, against the limit converted to unsigned), or restore it
to the table's final entry `table[table_length-1]` when unlocked.
`tableOpt = none` models `cpufreq_frequency_get_table(0)` returning
NULL. -/
def dvfs_cpufreq_notifier (tableOpt : Option (List Nat)) (maxLimit : Int)
    (event : Nat) (policy : CpufreqPolicy) : NotifierResult × CpufreqPolicy :=
  if event ≠ CPUFREQ_ADJUST then
    (.done, policy)
  else
    match tableOpt with
    | none => (.einval, policy)
    | some table =>
        if maxLimit ≠ -1 ∧ uintOf maxLimit < policy.max then
          (.done, { policy with max := uintOf maxLimit })
        else if maxLimit = -1 then
          (.done, { policy with max := table.getLastD 0 })
        else
          (.done, policy)

/-- A user-level request sequence element: a write of `v` to the
min-limit or max-limit endpoint. -/
inductive DvfsOp
  | reqMin (v : Int)
  | reqMax (v : Int)
deriving DecidableEq, Repr

/-- Apply one store operation to the DVFS state. -/
def applyOp (table : List Nat) (s : DvfsState) : DvfsOp → DvfsState
  | .reqMin v => (request_min table s v).2
  | .reqMax v => (request_max table s v).2

/-- Run a sequence of store operations from the initial state. -/
def runOps (table : List Nat) (ops : List DvfsOp) : DvfsState :=
  ops.foldl (applyOp table) dvfsInit

/-- The sample ascending frequency table used by the spec's scenario. -/
def sampleTable : List Nat := [100, 200, 300, 400, 500]

/-- The replacement-flag invariant: whenever `min_replacement` is set,
both limits are locked. -/
def ReplacementInv (s : DvfsState) : Prop :=
  s.min_replacement = true →
    s.cpufreq_min_limit_val ≠ -1 ∧ s.cpufreq_max_limit_val ≠ -1

instance (s : DvfsState) : Decidable (ReplacementInv s) := by
  unfold ReplacementInv; infer_instance

lemma replacementInv_request_max (table : List Nat) (s : DvfsState) (v : Int)
    (h : ReplacementInv s) : ReplacementInv (request_max table s v).2 := by
  unfold request_max
  unfold ReplacementInv at h ⊢
  split
  · split
    · dsimp only
      split <;> simp_all
    · simp_all
  · split
    · dsimp only
      split <;> simp_all
    · exact h

lemma replacementInv_request_min (table : List Nat) (s : DvfsState) (v : Int)
    (h : ReplacementInv s) : ReplacementInv (request_min table s v).2 := by
  unfold request_min
  unfold ReplacementInv at h ⊢
  split
  · split <;> simp_all
  · split
    · dsimp only
      split <;> simp_all
    · exact h

lemma replacementInv_applyOp (table : List Nat) (s : DvfsState) (op : DvfsOp)
    (h : ReplacementInv s) : ReplacementInv (applyOp table s op) := by
  cases op with
  | reqMin v => exact replacementInv_request_min table s v h
  | reqMax v => exact replacementInv_request_max table s v h

lemma replacementInv_foldl (table : List Nat) :
    ∀ (ops : List DvfsOp) (s : DvfsState), ReplacementInv s →
      ReplacementInv (ops.foldl (applyOp table) s)
  | [], _, h => h
  | op :: ops, s, h =>
      replacementInv_foldl table ops (applyOp table s op)
        (replacementInv_applyOp table s op h)

lemma replacementInv_runOps (table : List Nat) (ops : List DvfsOp) :
    ReplacementInv (runOps table ops) :=
  replacementInv_foldl table ops dvfsInit (by decide)

lemma request_max_unlock_val (table : List Nat) (s : DvfsState) :
    (request_max table s (-1)).2.cpufreq_max_limit_val = -1 := by
  unfold request_max
  by_cases h : s.cpufreq_max_limit_val = -1
  · simp [h]
  · simp [h]
    split <;> rfl

end DvfsLimit

namespace DvfsLimit

/-- C9: whenever `min_replacement` is true after any sequence of min/max
lock and unlock requests from the initial state, the min constraint is
locked (`cpufreq_min_limit_val ≠ -1`). -/
theorem min_replacement_implies_min_locked (table : List Nat)
    (ops : List DvfsOp) (h : (runOps table ops).min_replacement = true) :
    (runOps table ops).cpufreq_min_limit_val ≠ -1 :=
  (replacementInv_runOps table ops h).1

/-- Witness for C9 at the concrete sequence `reqMin 300; reqMax 200`. -/
theorem min_replacement_implies_min_locked_witness :
    (runOps sampleTable [DvfsOp.reqMin 300, DvfsOp.reqMax 200]).min_replacement
        = true ∧
    (runOps sampleTable
        [DvfsOp.reqMin 300, DvfsOp.reqMax 200]).cpufreq_min_limit_val ≠ -1 :=
  ⟨by decide,
   min_replacement_implies_min_locked sampleTable
     [DvfsOp.reqMin 300, DvfsOp.reqMax 200] (by decide)⟩

/-- C3 (amended): from any reachable state with `min_replacement` set,
`request_max(-1)` clears the flag and pushes the stored raw
`cpufreq_min_limit_val` (not a table-resolved value) onto the QoS
channel. -/
theorem request_max_unlock_restores_min (table : List Nat)
    (ops : List DvfsOp) (h : (runOps table ops).min_replacement = true) :
    (request_max table (runOps table ops) (-1)).2.min_replacement = false ∧
    (request_max table (runOps table ops) (-1)).2.prcmu_qos_arm_khz
      = (runOps table ops).cpufreq_min_limit_val := by
  obtain ⟨hmin, hmax⟩ := replacementInv_runOps table ops h
  unfold request_max
  simp [hmax, hmin, h]

/-- C3 counterexample: after `reqMin 250; reqMax 150` on the table
`[100, 200, 300, 400, 500]` the state is replaced with stored min `250`
(table-resolved `300`); unlocking the max pushes `250`, not the resolved
`300` claimed. -/
theorem request_max_unlock_restores_min_cex :
    (runOps sampleTable [DvfsOp.reqMin 250, DvfsOp.reqMax 150]).min_replacement
        = true ∧
    get_cpufreq_level sampleTable
        (uintOf (runOps sampleTable
          [DvfsOp.reqMin 250, DvfsOp.reqMax 150]).cpufreq_min_limit_val)
        DvfsLockReq.min_lock = some 300 ∧
    (request_max sampleTable
        (runOps sampleTable [DvfsOp.reqMin 250, DvfsOp.reqMax 150])
        (-1)).2.prcmu_qos_arm_khz = 250 ∧
    (250 : Int) ≠ 300 := by decide

/-- Witness for C3 (amended) at the sequence `reqMin 250; reqMax 150`. -/
theorem request_max_unlock_restores_min_witness :
    (request_max sampleTable
        (runOps sampleTable [DvfsOp.reqMin 250, DvfsOp.reqMax 150])
        (-1)).2.min_replacement = false ∧
    (request_max sampleTable
        (runOps sampleTable [DvfsOp.reqMin 250, DvfsOp.reqMax 150])
        (-1)).2.prcmu_qos_arm_khz
      = (runOps sampleTable
          [DvfsOp.reqMin 250, DvfsOp.reqMax 150]).cpufreq_min_limit_val :=
  request_max_unlock_restores_min sampleTable
    [DvfsOp.reqMin 250, DvfsOp.reqMax 150] (by decide)

/-- C8: a second consecutive `request_max(-1)` takes the benign
already-unlocked branch (a no-op reported as success, `ret = n`) and
changes no state. -/
theorem request_max_unlock_idempotent (table : List Nat) (s : DvfsState) :
    (request_max table (request_max table s (-1)).2 (-1)).1
        = StoreOutcome.already_unlocked ∧
    (request_max table (request_max table s (-1)).2 (-1)).2
        = (request_max table s (-1)).2 ∧
    store_succeeds StoreOutcome.already_unlocked = true := by
  have h := request_max_unlock_val table s
  set s1 := (request_max table s (-1)).2 with hs1
  refine ⟨?_, ?_, by decide⟩
  all_goals
    unfold request_max
    simp [h]

/-- C5 (amended): a well-formed integer request whose value does not
resolve against the table leaves the state unchanged and is reported to
the caller as success (`ret = n`), not as an error; only the log records
the invalid lock request. -/
theorem invalid_lock_request (table : List Nat) (s : DvfsState) (v : Int)
    (hv : v ≠ -1) :
    (get_cpufreq_level table (uintOf v) DvfsLockReq.max_lock = none →
      cpufreq_max_limit_store table s (some v)
        = (StoreOutcome.invalid_lock, s)) ∧
    (get_cpufreq_level table (uintOf v) DvfsLockReq.min_lock = none →
      cpufreq_min_limit_store table s (some v)
        = (StoreOutcome.invalid_lock, s)) ∧
    store_succeeds StoreOutcome.invalid_lock = true := by
  refine ⟨?_, ?_, by decide⟩ <;>
    (intro h
     simp [cpufreq_max_limit_store, cpufreq_min_limit_store,
       request_max, request_min, hv, h])

/-- C5 counterexample: the well-formed request `50` does not resolve on
`[100, 200, 300, 400, 500]` (no entry `≤ 50`), yet the max-limit store
returns success to its caller, contrary to the claimed synchronous
`InvalidRequest` error return. -/
theorem invalid_lock_request_cex :
    get_cpufreq_level sampleTable (uintOf 50) DvfsLockReq.max_lock = none ∧
    (cpufreq_max_limit_store sampleTable dvfsInit (some 50)).2 = dvfsInit ∧
    store_succeeds
      (cpufreq_max_limit_store sampleTable dvfsInit (some 50)).1 = true := by
  decide

/-- Witness for C5 (amended) at the unresolvable requests `50` (max) and
`600` (min). -/
theorem invalid_lock_request_witness :
    cpufreq_max_limit_store sampleTable dvfsInit (some 50)
        = (StoreOutcome.invalid_lock, dvfsInit) ∧
    cpufreq_min_limit_store sampleTable dvfsInit (some 600)
        = (StoreOutcome.invalid_lock, dvfsInit) :=
  ⟨(invalid_lock_request sampleTable dvfsInit 50 (by decide)).1 (by decide),
   (invalid_lock_request sampleTable dvfsInit 600 (by decide)).2.1
     (by decide)⟩

/-- C6: on a table containing the `CPUFREQ_ENTRY_INVALID` sentinel, the
`DVFS_MIN_LOCK_REQ` scan of `get_cpufreq_level` matches the sentinel
entry (its value `~0` is `≥` any request), so `request_min 300` on a
table whose highest valid entry is `200` succeeds, stores `300`, and
pushes `300` to the QoS channel instead of failing with state
unchanged. -/
theorem min_lock_matches_invalid_sentinel :
    get_cpufreq_level [100, 200, CPUFREQ_ENTRY_INVALID] 300
        DvfsLockReq.min_lock = some CPUFREQ_ENTRY_INVALID ∧
    request_min [100, 200, CPUFREQ_ENTRY_INVALID] dvfsInit 300
      = (StoreOutcome.locked,
         { dvfsInit with cpufreq_min_limit_val := 300
                         prcmu_qos_arm_khz := 300 }) := by
  decide

lemma uintOf_cast (v : Int) (h0 : 0 ≤ v) (h1 : v < 2 ^ 32) :
    (uintOf v : Int) = v := by
  unfold uintOf
  rw [Int.emod_eq_of_lt h0 (by exact_mod_cast h1)]
  exact Int.toNat_of_nonneg h0

lemma get_cpufreq_level_min_ge (table : List Nat) (freq : Nat) (r : Nat)
    (h : get_cpufreq_level table freq DvfsLockReq.min_lock = some r) :
    freq ≤ r := by
  have h2 : table.find? (fun f => decide (freq ≤ f)) = some r := h
  have h3 := @List.find?_some Nat (fun f => decide (freq ≤ f)) r table h2
  simpa using h3

/-- C1 (amended): for raw requests `vmin > vmax` that both resolve
against the table, applying `request_min vmin` and `request_max vmax`
in either order from the initial state ends with both limits stored
(raw), `min_replacement = true`, and the raw `vmax` (not its
table-resolved value) as the last QoS push. -/
theorem minmax_conflict_priority (table : List Nat) (vmin vmax : Int)
    (rmin rmax : Nat) (h0 : 0 ≤ vmin) (h1 : 0 ≤ vmax)
    (h2 : get_cpufreq_level table (uintOf vmin) DvfsLockReq.min_lock
            = some rmin)
    (h3 : get_cpufreq_level table (uintOf vmax) DvfsLockReq.max_lock
            = some rmax)
    (h4 : vmax < vmin) :
    runOps table [DvfsOp.reqMin vmin, DvfsOp.reqMax vmax]
        = ⟨vmax, vmin, true, vmax⟩ ∧
    runOps table [DvfsOp.reqMax vmax, DvfsOp.reqMin vmin]
        = ⟨vmax, vmin, true, vmax⟩ := by
  have hm : vmin ≠ -1 := by omega
  have hx : vmax ≠ -1 := by omega
  have step1 : applyOp table dvfsInit (DvfsOp.reqMin vmin)
      = ⟨-1, vmin, false, vmin⟩ := by
    simp [applyOp, request_min, dvfsInit, hm, h2]
  have step2 : applyOp table ⟨-1, vmin, false, vmin⟩ (DvfsOp.reqMax vmax)
      = ⟨vmax, vmin, true, vmax⟩ := by
    simp [applyOp, request_max, hx, h3, hm, h4]
  have step3 : applyOp table dvfsInit (DvfsOp.reqMax vmax)
      = ⟨vmax, -1, false, -1⟩ := by
    simp [applyOp, request_max, dvfsInit, PRCMU_QOS_DEFAULT_VALUE, hx, h3]
  have step4 : applyOp table ⟨vmax, -1, false, -1⟩ (DvfsOp.reqMin vmin)
      = ⟨vmax, vmin, true, vmax⟩ := by
    simp [applyOp, request_min, hm, h2, hx, h4]
  constructor
  · show applyOp table (applyOp table dvfsInit (DvfsOp.reqMin vmin))
        (DvfsOp.reqMax vmax) = _
    rw [step1, step2]
  · show applyOp table (applyOp table dvfsInit (DvfsOp.reqMax vmax))
        (DvfsOp.reqMin vmin) = _
    rw [step3, step4]

/-- C1 counterexample: `vmin = 250` resolves to `300` and `vmax = 280`
resolves to `200`, so the table-resolved values conflict
(`300 > 200`), yet applying the two requests (max first) leaves
`min_replacement = false` — the source compares and pushes the raw
stored values, not the resolved ones. -/
theorem minmax_conflict_priority_cex :
    get_cpufreq_level sampleTable (uintOf 250) DvfsLockReq.min_lock
        = some 300 ∧
    get_cpufreq_level sampleTable (uintOf 280) DvfsLockReq.max_lock
        = some 200 ∧
    (300 : Nat) > 200 ∧
    (runOps sampleTable
        [DvfsOp.reqMax 280, DvfsOp.reqMin 250]).min_replacement = false := by
  decide

/-- Witness for C1 (amended) at `vmin = 300`, `vmax = 200`. -/
theorem minmax_conflict_priority_witness :
    runOps sampleTable [DvfsOp.reqMin 300, DvfsOp.reqMax 200]
        = ⟨200, 300, true, 200⟩ ∧
    runOps sampleTable [DvfsOp.reqMax 200, DvfsOp.reqMin 300]
        = ⟨200, 300, true, 200⟩ :=
  minmax_conflict_priority sampleTable 300 200 300 200 (by decide)
    (by decide) (by decide) (by decide) (by decide)

/-- C2 (amended): a successful `request_max v` stores the raw requested
value `v` in `cpufreq_max_limit_val` (the `AtOrBelow` lookup is used
only to validate the request), and `request_max (-1)` always leaves the
max limit unlocked. -/
theorem request_max_stores_raw (table : List Nat) (s : DvfsState)
    (v : Int) (r : Nat) (h0 : 0 ≤ v)
    (h1 : get_cpufreq_level table (uintOf v) DvfsLockReq.max_lock
            = some r) :
    (request_max table s v).1 = StoreOutcome.locked ∧
    (request_max table s v).2.cpufreq_max_limit_val = v ∧
    (request_max table s (-1)).2.cpufreq_max_limit_val = -1 := by
  have hv : v ≠ -1 := by omega
  refine ⟨?_, ?_, request_max_unlock_val table s⟩
  all_goals
    unfold request_max
    simp [hv, h1]
    split <;> rfl

/-- C2 counterexample: `request_max 350` on `[100, 200, 300, 400, 500]`
resolves to `300` but stores `350`, so the stored `max.value` differs
from the `AtOrBelow` lookup result. -/
theorem request_max_stores_raw_cex :
    get_cpufreq_level sampleTable (uintOf 350) DvfsLockReq.max_lock
        = some 300 ∧
    (request_max sampleTable dvfsInit 350).2.cpufreq_max_limit_val
        = 350 ∧
    (350 : Int) ≠ 300 := by decide

/-- Witness for C2 (amended) at `v = 350` on the sample table. -/
theorem request_max_stores_raw_witness :
    (request_max sampleTable dvfsInit 350).1 = StoreOutcome.locked ∧
    (request_max sampleTable dvfsInit 350).2.cpufreq_max_limit_val
        = 350 ∧
    (request_max sampleTable dvfsInit (-1)).2.cpufreq_max_limit_val
        = -1 :=
  request_max_stores_raw sampleTable dvfsInit 350 300 (by decide)
    (by decide)

/-- C4 (amended): a min request `v` (within the C `int` range) that
resolves to `r` with no conflict against the current max
(`max` unlocked or `r ≤ max`) stores `v`, pushes the raw `v` (not the
resolved `r`) onto the QoS channel, and leaves `min_replacement`
unchanged (the source does not clear it in this branch). -/
theorem request_min_no_conflict (table : List Nat) (s : DvfsState)
    (v : Int) (r : Nat) (h0 : 0 ≤ v) (hr : v < 2 ^ 31)
    (h1 : get_cpufreq_level table (uintOf v) DvfsLockReq.min_lock
            = some r)
    (h2 : s.cpufreq_max_limit_val = -1 ∨
            (r : Int) ≤ s.cpufreq_max_limit_val) :
    (request_min table s v).1 = StoreOutcome.locked ∧
    (request_min table s v).2.cpufreq_min_limit_val = v ∧
    (request_min table s v).2.prcmu_qos_arm_khz = v ∧
    (request_min table s v).2.min_replacement = s.min_replacement := by
  have hv : v ≠ -1 := by omega
  have hcast : (uintOf v : Int) = v :=
    uintOf_cast v h0 (by omega)
  have hvr : v ≤ (r : Int) := by
    have := get_cpufreq_level_min_ge table (uintOf v) r h1
    omega
  have hcond : ¬(s.cpufreq_max_limit_val ≠ -1 ∧
      s.cpufreq_max_limit_val < v) := by
    rcases h2 with h2 | h2
    · simp [h2]
    · simp [h2]
      omega
  refine ⟨?_, ?_, ?_, ?_⟩ <;>
    (unfold request_min; simp only [hv, if_neg, h1]; simp [hcond])

/-- C4 counterexample: in the reachable state `max = 200`, `min = 300`,
`min_replacement = true`, the request `reqMin 150` resolves to `200`
(`≤ max`, no conflict), yet the QoS push is the raw `150` rather than
the resolved `200`, and `min_replacement` stays `true` rather than
being cleared. -/
theorem request_min_no_conflict_cex :
    runOps sampleTable [DvfsOp.reqMax 200, DvfsOp.reqMin 300]
        = ⟨200, 300, true, 200⟩ ∧
    get_cpufreq_level sampleTable (uintOf 150) DvfsLockReq.min_lock
        = some 200 ∧
    ((200 : Nat) : Int) ≤ 200 ∧
    (request_min sampleTable ⟨200, 300, true, 200⟩
        150).2.prcmu_qos_arm_khz = 150 ∧
    (request_min sampleTable ⟨200, 300, true, 200⟩
        150).2.min_replacement = true ∧
    (150 : Int) ≠ 200 := by decide

/-- Witness for C4 (amended) at `v = 250` from the initial state. -/
theorem request_min_no_conflict_witness :
    (request_min sampleTable dvfsInit 250).1 = StoreOutcome.locked ∧
    (request_min sampleTable dvfsInit 250).2.cpufreq_min_limit_val
        = 250 ∧
    (request_min sampleTable dvfsInit 250).2.prcmu_qos_arm_khz = 250 ∧
    (request_min sampleTable dvfsInit 250).2.min_replacement
        = dvfsInit.min_replacement :=
  request_min_no_conflict sampleTable dvfsInit 250 300 (by decide)
    (by decide) (by decide) (Or.inl (by decide))

/-- C7 (amended): on a `CPUFREQ_ADJUST` event with an available table,
a locked max limit clamps the policy ceiling to the minimum of the
policy's incoming `max` (not its hardware `cpuinfo.max_freq`) and the
stored limit; an unlocked limit resets the ceiling to the table's final
entry `table[table_length-1]` (which need not be its highest valid
entry). -/
theorem dvfs_notifier_clamps_policy_max (table : List Nat)
    (policy : CpufreqPolicy) (m : Int) :
    (m ≠ -1 →
      (dvfs_cpufreq_notifier (some table) m CPUFREQ_ADJUST policy).2.max
        = min policy.max (uintOf m)) ∧
    (m = -1 → table ≠ [] →
      (dvfs_cpufreq_notifier (some table) m CPUFREQ_ADJUST policy).2.max
        = table.getLastD 0) := by
  constructor
  · intro hm
    unfold dvfs_cpufreq_notifier
    by_cases h : uintOf m < policy.max
    · simp [hm, h, Nat.min_eq_right (Nat.le_of_lt h)]
    · simp [hm, h, Nat.min_eq_left (Nat.le_of_not_lt h)]
  · intro hm _
    unfold dvfs_cpufreq_notifier
    simp [hm]

/-- C7 counterexample: with incoming policy ceiling `200`, hardware max
`500`, and `cpufreq_max_limit_val = 300`, the notifier leaves the
ceiling at `200`, not `min(hardware_max, 300) = 300` as claimed. -/
theorem dvfs_notifier_clamps_policy_max_cex :
    (dvfs_cpufreq_notifier (some sampleTable) 300 CPUFREQ_ADJUST
        ⟨100, 200, 200, 100, 500⟩).2.max = 200 ∧
    min (500 : Nat) (uintOf 300) = 300 ∧
    (200 : Nat) ≠ 300 := by decide

/-- Witness for C7 (amended) at `m = 300` and `m = -1`. -/
theorem dvfs_notifier_clamps_policy_max_witness :
    (dvfs_cpufreq_notifier (some sampleTable) 300 CPUFREQ_ADJUST
        ⟨100, 400, 200, 100, 500⟩).2.max = min 400 (uintOf 300) ∧
    (dvfs_cpufreq_notifier (some sampleTable) (-1) CPUFREQ_ADJUST
        ⟨100, 400, 200, 100, 500⟩).2.max = sampleTable.getLastD 0 :=
  ⟨(dvfs_notifier_clamps_policy_max sampleTable
      ⟨100, 400, 200, 100, 500⟩ 300).1 (by decide),
   (dvfs_notifier_clamps_policy_max sampleTable
      ⟨100, 400, 200, 100, 500⟩ (-1)).2 rfl (by decide)⟩

/-- C10: the notifier never modifies any policy field other than the
ceiling `policy->max`, and for any event other than `CPUFREQ_ADJUST`
it returns `NOTIFY_DONE` with the policy entirely unchanged. -/
theorem dvfs_notifier_frame (tableOpt : Option (List Nat)) (m : Int)
    (event : Nat) (policy : CpufreqPolicy) :
    ((dvfs_cpufreq_notifier tableOpt m event policy).2.min
        = policy.min ∧
     (dvfs_cpufreq_notifier tableOpt m event policy).2.cur
        = policy.cur ∧
     (dvfs_cpufreq_notifier tableOpt m event policy).2.cpuinfo_min_freq
        = policy.cpuinfo_min_freq ∧
     (dvfs_cpufreq_notifier tableOpt m event policy).2.cpuinfo_max_freq
        = policy.cpuinfo_max_freq) ∧
    (event ≠ CPUFREQ_ADJUST →
      dvfs_cpufreq_notifier tableOpt m event policy
        = (NotifierResult.done, policy)) := by
  unfold dvfs_cpufreq_notifier
  constructor
  · split
    · simp
    · cases tableOpt with
      | none => simp
      | some table =>
          dsimp only
          split
          · simp
          · split <;> simp
  · intro h
    simp [h]

/-- Witness for C10 at the non-adjust event `CPUFREQ_NOTIFY = 2`. -/
theorem dvfs_notifier_frame_witness :
    dvfs_cpufreq_notifier (some sampleTable) 300 2
        ⟨100, 200, 200, 100, 500⟩
      = (NotifierResult.done, ⟨100, 200, 200, 100, 500⟩) :=
  (dvfs_notifier_frame (some sampleTable) 300 2
    ⟨100, 200, 200, 100, 500⟩).2 (by decide)

end DvfsLimit
